import Mathlib

/-!
Verification of the webext login/session middleware (`login.go`).

The Go code is shallowly embedded as pure Lean functions:

* the `formSession` SyncMap becomes an association list `FormStore` with
  `storeGet` / `storeDel` / `storeSet` mirroring the map operations;
* `time.Time` values become `Nat` millisecond timestamps (`UnixMilli`);
* the caller-supplied hooks (`Hooks.LoginForm.*`, `Hooks.GetPCID`) become
  fields of a `HookList` record of pure functions;
* response side effects (cookies set or cleared, `c.Locals`, hook side
  effects such as `RemoveSession` and `OnFailedAttempt`) are collected in
  the returned `Result` record;
* the external sanitizer `goutil.Clean.Str` is modelled as the identity on
  the already-clean strings the theorems quantify over, and the random
  tokens produced by `crypt.RandBytes` are supplied through `Env`.
-/

namespace Webext

/-- `formSessionData` from login.go: `{pcid string; cookie string; exp time.Time}`.
`exp` is the `UnixMilli` value of the expiry time. -/
structure FormSessionData where
  pcid : String
  cookie : String
  exp : Nat
deriving Repr, DecidableEq

/-- The `formSession` SyncMap, modelled as an association list keyed by token. -/
abbrev FormStore := List (String × FormSessionData)

/-- `SyncMap.Get`: first binding of the key, if any. -/
def storeGet : FormStore → String → Option FormSessionData
  | [], _ => none
  | (k, v) :: t, key => if k = key then some v else storeGet t key

/-- `SyncMap.Del`: remove all bindings of the key. -/
def storeDel (s : FormStore) (key : String) : FormStore :=
  s.filter (fun p => p.1 != key)

/-- `SyncMap.Set`: bind the key, replacing any previous binding. -/
def storeSet (s : FormStore) (key : String) (v : FormSessionData) : FormStore :=
  (key, v) :: storeDel s key

/-- A `fiber.Cookie` as populated by login.go (`Expires` as `UnixMilli`). -/
structure Cookie where
  name : String
  value : String
  expires : Nat
  path : String
  domain : String
  secure : Bool
  httpOnly : Bool
  sameSite : String
deriving Repr, DecidableEq

/-- A cookie mutation on the response: `c.Cookie(...)` or `c.ClearCookie(...)`. -/
inductive CookieOp
  | set (c : Cookie)
  | clear (name : String)
deriving Repr, DecidableEq

/-- Observable hook side effects, recorded in the order the code performs them. -/
inductive Ev
  | removeSessionEv (tok : String)
  | failedAttemptEv
  | verifyUserPassEv (u p : String)
  | verifySessionEv (tok : String)
  | createSessionEv (uuid : String)
deriving Repr, DecidableEq

/-- The tokens of `Ev.removeSessionEv` events, in order: one entry per
`Hooks.LoginForm.RemoveSession` call. -/
def removeEvs (l : List Ev) : List String :=
  l.filterMap fun e =>
    match e with
    | Ev.removeSessionEv t => some t
    | _ => none

/-- Terminal outcome of the middleware:
`next` = `return c.Next()` (request proceeds downstream);
`denied status msg` = `c.SendStatus(status); return c.SendString(msg)`;
`challenge tok` = `c.SendStatus(401); return Hooks.LoginForm.Render(c, tok)`. -/
inductive Outcome
  | next
  | denied (status : Nat) (msg : String)
  | challenge (formToken : String)
deriving Repr, DecidableEq

/-- Everything observable about one middleware invocation. -/
structure Result where
  outcome : Outcome
  cookieOps : List CookieOp
  store : FormStore
  localsUuid : Option String
  events : List Ev
deriving Repr, DecidableEq

/-- The parts of the request that login.go reads. `conn` is the connection
metadata (remote address and user agent) that the device-fingerprint hook
consumes; `formAction`, `formSession`, `formUsername`, `formPassword` are the
submitted form fields `action`, `session`, `username`, `password`; the cookie
fields are `""` when the cookie is absent (as `c.Cookies` returns). -/
structure Request where
  conn : String
  hostname : String
  path : String
  method : String
  formAction : String
  formSession : String
  formUsername : String
  formPassword : String
  cookieFormSession : String
  cookieLoginSession : String
deriving Repr, DecidableEq

/-- Environment of one invocation: the current time (`time.Now().UnixMilli()`)
and the two fresh random strings that `crypt.RandBytes(64)` would produce for
a new challenge. -/
structure Env where
  now : Nat
  freshFormToken : String
  freshFormCookie : String

/-- The hook table of login.go (`Hooks.GetPCID` and `Hooks.LoginForm.*`).
`getPCID` is a function of the connection metadata; `createSession` returns
(token, expiry, optional error message); `onLogin` is the callback list, each
returning `none` to allow the login or an error message to reject it. -/
structure HookList where
  getPCID : String → String
  onAttempt : Request → Bool
  verifyUserPass : String → String → String × Bool
  verifySession : String → String × Bool
  createSession : String → String × Nat × Option String
  onLogin : List (String → Option String)

/-- The hostname computation of login.go line 169: the regex
`:[0-9]+$` applied to the hostname with an empty replacement, i.e. a trailing
colon-and-digits suffix is removed when present. -/
def stripPort (s : String) : String :=
  let rev := s.data.reverse
  let ds := rev.takeWhile Char.isDigit
  match rev.drop ds.length with
  | ':' :: rest => if ds.isEmpty then s else String.mk rest.reverse
  | _ => s

/-- Numeric value of a digit string. -/
def digitsToNat (ds : List Char) : Nat :=
  ds.foldl (fun n c => n * 10 + (c.toNat - '0'.toNat)) 0

/-- Lines 203-209 of login.go: `status := 401`, then the regex
`^([0-9]+):\s*` is run over the error message by `RepFunc` and, when it
matched and `strconv.Atoi` succeeds on the captured digits (no int64
overflow), `status` becomes that number (the regex matches exactly when the
message starts with one or more digits followed by a colon, `\s*` being able
to match the empty string). `RepFunc` is invoked with its trailing blank
flag set, which runs the callback for its side effect only, skips building
the replacement, and returns nil — so the `msg` sent as the response body at
line 211 is nil (an empty body), and only the status is computed from the
message. This function returns that status. -/
def parseStatusErr (s : String) : Nat :=
  let cs := s.data
  let ds := cs.takeWhile Char.isDigit
  match cs.drop ds.length with
  | ':' :: _ =>
    if ds.isEmpty then 401
    else
      let v := digitsToNat ds
      if v ≤ 9223372036854775807 then v else 401
  | _ => 401

/-- Lines 193-198 of login.go: run the `OnLogin` callbacks in order and
return the first non-nil error. -/
def runOnLogin : List (String → Option String) → String → Option String
  | [], _ => none
  | cb :: t, uuid =>
    match cb uuid with
    | some e => some e
    | none => runOnLogin t uuid

/-- Lines 255-278 of login.go: issue a fresh login challenge — insert a new
form session bound to the caller's fingerprint, set the `form_session` cookie
(path = request path, 2h expiry) and render the login form with status 401.
`evs`/`cops` are effects already accumulated earlier in the handler. -/
def challengeResp (hk : HookList) (env : Env) (req : Request) (store : FormStore)
    (hostname path : String) (evs : List Ev) (cops : List CookieOp) : Result :=
  let exp := env.now + 7200000
  let store1 := storeSet store env.freshFormToken
    { pcid := hk.getPCID req.conn, cookie := env.freshFormCookie, exp := exp }
  let fc : Cookie :=
    { name := "form_session", value := env.freshFormCookie, expires := exp,
      path := path, domain := hostname, secure := true, httpOnly := true,
      sameSite := "Strict" }
  { outcome := Outcome.challenge env.freshFormToken
    cookieOps := cops ++ [CookieOp.set fc]
    store := store1
    localsUuid := none
    events := evs }

/-- Lines 241-278 of login.go: the code every action falls through to —
check the `login_session` cookie via `VerifySession` and pass downstream on
success, otherwise issue a fresh challenge. -/
def noActionResp (hk : HookList) (env : Env) (req : Request) (store : FormStore)
    (hostname path : String) (evs : List Ev) (cops : List CookieOp) : Result :=
  let loginToken := req.cookieLoginSession
  if loginToken ≠ "" then
    let vs := hk.verifySession loginToken
    let evs1 := evs ++ [Ev.verifySessionEv loginToken]
    if vs.2 then
      { outcome := Outcome.next, cookieOps := cops, store := store,
        localsUuid := some vs.1, events := evs1 }
    else
      challengeResp hk env req store hostname path evs1 cops
  else
    challengeResp hk env req store hostname path evs cops

/-- Lines 236-238 of login.go: the shared form-session failure exit —
clear the `form_session` cookie and answer 408. -/
def sessionInvalid (store : FormStore) : Result :=
  { outcome := Outcome.denied 408 "Session Invalid Or Expired!"
    cookieOps := [CookieOp.clear "form_session"]
    store := store
    localsUuid := none
    events := [] }

/-- Lines 190-233 of login.go: the body of the cookie-secret match branch —
`ClearCookie("form_session")`, then `VerifyUserPass`, the `OnLogin` callbacks,
`CreateSession`, and either the `login_session` cookie + pass-through or the
relevant denial. `store1` is the store after the token was consumed. -/
def loginChecks (hk : HookList) (req : Request) (store1 : FormStore)
    (hostname : String) : Result :=
  let vp := hk.verifyUserPass req.formUsername req.formPassword
  let evs := [Ev.verifyUserPassEv req.formUsername req.formPassword]
  if vp.2 then
    match runOnLogin hk.onLogin vp.1 with
    | some e =>
      { outcome := Outcome.denied 401 e
        cookieOps := [CookieOp.clear "form_session"]
        store := store1, localsUuid := none, events := evs }
    | none =>
      let cs := hk.createSession vp.1
      let evs1 := evs ++ [Ev.createSessionEv vp.1]
      match cs.2.2 with
      | some errMsg =>
        { outcome := Outcome.denied (parseStatusErr errMsg) ""
          cookieOps := [CookieOp.clear "form_session"]
          store := store1, localsUuid := none, events := evs1 }
      | none =>
        let lc : Cookie :=
          { name := "login_session", value := cs.1, expires := cs.2.1,
            path := "/", domain := hostname, secure := true,
            httpOnly := true, sameSite := "Strict" }
        { outcome := Outcome.next
          cookieOps := [CookieOp.clear "form_session", CookieOp.set lc]
          store := store1, localsUuid := some vp.1, events := evs1 }
  else
    { outcome := Outcome.denied 401 "Incorrect Username Or Password!"
      cookieOps := [CookieOp.clear "form_session"]
      store := store1, localsUuid := none
      events := evs ++ [Ev.failedAttemptEv] }

/-- The `VerifyLogin` middleware of login.go (lines 167-280), as a pure
function of the hooks, environment, request and form-session store. -/
def verifyLogin (hk : HookList) (env : Env) (req : Request)
    (store : FormStore) : Result :=
  let hostname := stripPort req.hostname
  let path := req.path
  let action := req.formAction
  if action = "logout" then
    noActionResp hk env req store hostname path
      [Ev.removeSessionEv req.formSession] [CookieOp.clear "login_session"]
  else if action = "login" then
    if hk.onAttempt req then
      match storeGet store req.formSession with
      | some s =>
        if s.pcid = hk.getPCID req.conn ∧ env.now < s.exp then
          let store1 := storeDel store req.formSession
          if req.cookieFormSession = s.cookie then
            loginChecks hk req store1 hostname
          else
            sessionInvalid store1
        else
          sessionInvalid store
      | none => sessionInvalid store
    else
      { outcome := Outcome.denied 401 "Too Many Login Attempts!"
        cookieOps := [], store := store, localsUuid := none, events := [] }
  else
    noActionResp hk env req store hostname path [] []

/-- The `GetLoginSession` middleware of login.go (lines 287-298): attach the
uuid when the `login_session` cookie verifies, and always pass downstream. -/
def getLoginSession (hk : HookList) (req : Request) (store : FormStore) : Result :=
  let loginToken := req.cookieLoginSession
  if loginToken ≠ "" then
    let vs := hk.verifySession loginToken
    { outcome := Outcome.next, cookieOps := [], store := store,
      localsUuid := if vs.2 then some vs.1 else none,
      events := [Ev.verifySessionEv loginToken] }
  else
    { outcome := Outcome.next, cookieOps := [], store := store,
      localsUuid := none, events := [] }

/-!
## Earlier revision of the middleware

The repository also carries an earlier revision of `VerifyLogin` (the unnamed
source file whose hooks are the package-level `FormVerifyLogin`,
`FormVerifyLoginSession`, `FormCreateLoginSession`, `FormRemoveLoginSession`
variables and whose credential check returns a `FormAuth` value). It is the
only revision in which the second-factor flag (`FormAuth.Enabled`) reaches
`VerifyLogin`, so the second-factor claims are settled against it.
-/

/-- `FormAuth` from the source: the 2-step-authentication options returned by
the credential check. -/
structure FormAuth where
  enabled : Bool
  email : String
deriving Repr, DecidableEq

/-- The package-level hook variables consumed by the earlier `VerifyLogin`
revision. `formCreateLoginSession` returns (token, expiry). -/
structure HookListRev1 where
  getPCID : String → String
  formVerifyLogin : String → String → FormAuth × Bool
  formVerifyLoginSession : String → Bool
  formCreateLoginSession : Unit → String × Nat

/-- Terminal outcome of the earlier revision:
`next` = `return c.Next()`;
`sendMsg` = `c.SendStatus(formStatus); return c.SendString(formError)`;
`renderPage status tok err` = `RenderPage(c, "form:login", formStatus,
{session: tok, error: err})`. -/
inductive OutcomeRev1
  | next
  | sendMsg (status : Nat) (msg : String)
  | renderPage (status : Nat) (formToken : String) (errMsg : String)
deriving Repr, DecidableEq

/-- Observable output of the earlier revision (it never sets `c.Locals`). -/
structure ResultRev1 where
  outcome : OutcomeRev1
  cookieOps : List CookieOp
  store : FormStore
  events : List Ev
deriving Repr, DecidableEq

/-- The tail of the earlier `VerifyLogin` revision (after the action branch):
check the `login_session` cookie, then for non-GET requests answer
`(formStatus, formError)` with the 200/401 and empty-message defaults applied,
and for GET requests create a fresh form session and render the login form. -/
def rev1AfterAction (hk : HookListRev1) (env : Env) (req : Request)
    (store : FormStore) (hostname path : String)
    (formStatus : Nat) (formError : String)
    (evs : List Ev) (cops : List CookieOp) : ResultRev1 :=
  let loginToken := req.cookieLoginSession
  if loginToken ≠ "" ∧ hk.formVerifyLoginSession loginToken then
    { outcome := OutcomeRev1.next, cookieOps := cops, store := store,
      events := evs }
  else if req.method ≠ "GET" then
    let st := if formStatus = 200 then 401 else formStatus
    let er := if formError = "" then "Authentication Required!" else formError
    { outcome := OutcomeRev1.sendMsg st er, cookieOps := cops, store := store,
      events := evs }
  else
    let exp := env.now + 7200000
    let store1 := storeSet store env.freshFormToken
      { pcid := hk.getPCID req.conn, cookie := env.freshFormCookie, exp := exp }
    let fc : Cookie :=
      { name := "form_session", value := env.freshFormCookie, expires := exp,
        path := path, domain := hostname, secure := true, httpOnly := true,
        sameSite := "Strict" }
    { outcome := OutcomeRev1.renderPage formStatus env.freshFormToken formError
      cookieOps := cops ++ [CookieOp.set fc]
      store := store1
      events := evs }

/-- The earlier `VerifyLogin` revision as a pure function. In its login
branch, after a verified password the guard is literally
`!auth2.Enabled || true` (the 2FA branch is commented out as under
development), and when credentials fail the `formStatus = 401` assignment is
unconditionally overwritten by the trailing `formStatus = 408` statement. -/
def verifyLoginRev1 (hk : HookListRev1) (env : Env) (req : Request)
    (store : FormStore) : ResultRev1 :=
  let hostname := stripPort req.hostname
  let path := req.path
  let action := req.formAction
  if action = "logout" then
    rev1AfterAction hk env req store hostname path 200 ""
      [Ev.removeSessionEv req.formSession] [CookieOp.clear "login_session"]
  else if action = "login" then
    match storeGet store req.formSession with
    | some s =>
      if s.pcid = hk.getPCID req.conn ∧ env.now < s.exp then
        let store1 := storeDel store req.formSession
        if req.cookieFormSession = s.cookie then
          let vl := hk.formVerifyLogin req.formUsername req.formPassword
          if vl.2 then
            if !(vl.1).enabled || true then
              let cs := hk.formCreateLoginSession ()
              let lc : Cookie :=
                { name := "login_session", value := cs.1, expires := cs.2,
                  path := "/", domain := hostname, secure := true,
                  httpOnly := true, sameSite := "Strict" }
              { outcome := OutcomeRev1.next
                cookieOps := [CookieOp.clear "form_session", CookieOp.set lc]
                store := store1
                events := [] }
            else
              rev1AfterAction hk env req store1 hostname path
                408 "Session Invalid Or Expired!" [] [CookieOp.clear "form_session"]
          else
            rev1AfterAction hk env req store1 hostname path
              408 "Session Invalid Or Expired!" [] [CookieOp.clear "form_session"]
        else
          rev1AfterAction hk env req store1 hostname path
            408 "Session Invalid Or Expired!" [] []
      else
        rev1AfterAction hk env req store hostname path
          408 "Session Invalid Or Expired!" [] []
    | none =>
      rev1AfterAction hk env req store hostname path
        408 "Session Invalid Or Expired!" [] []
  else
    rev1AfterAction hk env req store hostname path 200 "" [] []

/-!
## Interleaving model of the redeem race

Lines 187-189 of login.go perform the redemption as two separate operations
on the shared `formSession` SyncMap: a `Get` (whose result is checked against
the caller's fingerprint, the current time, and the caller's `form_session`
cookie) followed by a `Del`. Each SyncMap operation is individually atomic,
but nothing makes the Get-check-Del sequence atomic, so two request handlers
redeeming the same token can interleave. The model below runs two copies of
that sequence under an explicit schedule, each SyncMap operation being one
indivisible step.
-/

/-- Local state of one redeeming request handler: `pc = 0` before the `Get`,
`pc = 1` after a `Get` whose checks all passed (the `Del` is still pending),
`pc = 2` done. `passed` records whether this handler observed the record as
present with matching fingerprint, unexpired, and with matching cookie
secret — i.e. whether it proceeds to credential verification. -/
structure RedeemObs where
  pc : Nat
  passed : Bool
deriving Repr, DecidableEq

/-- One atomic step of a redeeming handler (its next SyncMap operation).
`pcid` is the handler's device fingerprint, `now` the current time,
`cookieVal` its `form_session` cookie, `tok` the submitted token. -/
def redeemStep (pcid : String) (now : Nat) (cookieVal tok : String)
    (store : FormStore) (o : RedeemObs) : FormStore × RedeemObs :=
  if o.pc = 0 then
    match storeGet store tok with
    | some s =>
      if s.pcid = pcid ∧ now < s.exp then
        (store, { pc := 1, passed := cookieVal == s.cookie })
      else
        (store, { pc := 2, passed := false })
    | none => (store, { pc := 2, passed := false })
  else if o.pc = 1 then
    (storeDel store tok, { o with pc := 2 })
  else
    (store, o)

/-- Run two redeeming handlers A and B over a schedule: `true` schedules the
next atomic step of A, `false` of B. Both handlers submit the same token and
carry the same fingerprint and cookie. Returns the final store and both
handlers' local states. -/
def runSched (pcid : String) (now : Nat) (cookieVal tok : String) :
    List Bool → FormStore → RedeemObs → RedeemObs →
      FormStore × RedeemObs × RedeemObs
  | [], store, a, b => (store, a, b)
  | c :: rest, store, a, b =>
    if c then
      let sa := redeemStep pcid now cookieVal tok store a
      runSched pcid now cookieVal tok rest sa.1 sa.2 b
    else
      let sb := redeemStep pcid now cookieVal tok store b
      runSched pcid now cookieVal tok rest sb.1 a sb.2

/-!
## Concrete configurations used to exercise the model

A small hook table, request, store and environment capturing the standard
scenario: device `c1` was issued token `tok1` with cookie secret `cs1`
expiring at time 1000, and user `alice`/`pw` has uuid `uuid-alice`.
-/

/-- Example hook table: attempts by username `blocked` are rate-limited,
`alice`/`pw` verifies with uuid `uuid-alice`, session token `sess-good`
verifies, and `CreateSession` returns token `newtok` expiring at 5000. -/
def hkEx : HookList :=
  { getPCID := fun conn => "pcid-" ++ conn
    onAttempt := fun r => r.formUsername != "blocked"
    verifyUserPass := fun u p =>
      if u = "alice" ∧ p = "pw" then ("uuid-alice", true) else ("", false)
    verifySession := fun t =>
      if t = "sess-good" then ("uuid-alice", true) else ("", false)
    createSession := fun _ => ("newtok", 5000, none)
    onLogin := [] }

/-- `hkEx` with a failing `CreateSession` whose error message is
`503: overloaded`. -/
def hkErr : HookList :=
  { hkEx with createSession := fun _ => ("", 0, some "503: overloaded") }

/-- Example login request from device `c1` submitting token `tok1` with the
matching `form_session` cookie and alice's credentials. -/
def reqEx : Request :=
  { conn := "c1", hostname := "example.com:8080", path := "/login",
    method := "POST", formAction := "login", formSession := "tok1",
    formUsername := "alice", formPassword := "pw",
    cookieFormSession := "cs1", cookieLoginSession := "" }

/-- The pending form-session record for `tok1`. -/
def recEx : FormSessionData := { pcid := "pcid-c1", cookie := "cs1", exp := 1000 }

/-- Store holding the single pending challenge `tok1`. -/
def storeEx : FormStore := [("tok1", recEx)]

/-- Environment: current time 500 (before the expiry 1000). -/
def envEx : Env := { now := 500, freshFormToken := "ft", freshFormCookie := "fc" }

/-- `reqEx` but issued from device `c2`: the stored fingerprint `pcid-c1`
does not match this caller's fingerprint `pcid-c2`. -/
def reqMismatch : Request := { reqEx with conn := "c2" }

/-- `reqEx` but with the rate-limited username, so `OnAttempt` denies. -/
def reqBlocked : Request := { reqEx with formUsername := "blocked" }

/-- `reqEx` but submitting a token that has no record in the store. -/
def reqNoTok : Request := { reqEx with formSession := "unknown" }

/-- A logout request whose submitted `session` form field (`formTok`) differs
from its `login_session` cookie (`cookieTok`). -/
def reqLogout : Request :=
  { reqEx with formAction := "logout", formSession := "formTok",
               cookieLoginSession := "cookieTok" }

/-- Example hooks for the earlier revision: `alice`/`pw` verifies **with
second-factor enabled** (`FormAuth.Enabled = true`). -/
def hkRev1Ex : HookListRev1 :=
  { getPCID := fun conn => "pcid-" ++ conn
    formVerifyLogin := fun u p =>
      if u = "alice" ∧ p = "pw"
      then ({ enabled := true, email := "alice@example.com" }, true)
      else ({ enabled := false, email := "" }, false)
    formVerifyLoginSession := fun _ => false
    formCreateLoginSession := fun _ => ("newtok", 5000) }

/-!
## Helper lemmas
-/

/-- If every `OnLogin` callback allows the uuid, the callback loop reports
no error. -/
theorem runOnLogin_eq_none {l : List (String → Option String)} {uuid : String}
    (h : ∀ cb ∈ l, cb uuid = none) : runOnLogin l uuid = none := by
  induction l with
  | nil => rfl
  | cons cb t ih =>
    have hcb : cb uuid = none := h cb (by simp)
    simp only [runOnLogin, hcb]
    exact ih fun c hc => h c (by simp [hc])

/-- When the form-session redemption fully succeeds, `verifyLogin` reduces to
the credential-checking continuation on the consumed store. -/
theorem verifyLogin_redeem_success (hk : HookList) (env : Env) (req : Request)
    (store : FormStore) (s : FormSessionData)
    (ha : req.formAction = "login")
    (hatt : hk.onAttempt req = true)
    (hget : storeGet store req.formSession = some s)
    (hpcid : s.pcid = hk.getPCID req.conn)
    (hexp : env.now < s.exp)
    (hcookie : req.cookieFormSession = s.cookie) :
    verifyLogin hk env req store =
      loginChecks hk req (storeDel store req.formSession) (stripPort req.hostname) := by
  unfold verifyLogin
  simp [ha, hatt, hget, hpcid, hexp, hcookie]

/-!
## Claims
-/

/-- C2: for an `action=login` request where the form-session redemption
succeeds (token present, fingerprint match, unexpired, cookie secret match),
`VerifyUserPass` affirms, every `OnLogin` callback returns nil and
`CreateSession` succeeds, the response sets a `login_session` cookie with the
returned token, httpOnly, secure, SameSite=Strict, path `/`, domain = request
hostname with any trailing `:port` stripped, expiry = returned time; the uuid
is attached to the request context and the request proceeds downstream. -/
theorem c2_login_success (hk : HookList) (env : Env) (req : Request)
    (store : FormStore) (s : FormSessionData) (uuid tok : String) (expT : Nat)
    (ha : req.formAction = "login")
    (hatt : hk.onAttempt req = true)
    (hget : storeGet store req.formSession = some s)
    (hpcid : s.pcid = hk.getPCID req.conn)
    (hexp : env.now < s.exp)
    (hcookie : req.cookieFormSession = s.cookie)
    (hvp : hk.verifyUserPass req.formUsername req.formPassword = (uuid, true))
    (hol : ∀ cb ∈ hk.onLogin, cb uuid = none)
    (hcs : hk.createSession uuid = (tok, expT, none)) :
    (verifyLogin hk env req store).outcome = Outcome.next
    ∧ (verifyLogin hk env req store).localsUuid = some uuid
    ∧ (verifyLogin hk env req store).cookieOps =
        [CookieOp.clear "form_session",
         CookieOp.set
           { name := "login_session", value := tok, expires := expT,
             path := "/", domain := stripPort req.hostname,
             secure := true, httpOnly := true, sameSite := "Strict" }] := by
  rw [verifyLogin_redeem_success hk env req store s ha hatt hget hpcid hexp hcookie]
  unfold loginChecks
  simp [hvp, runOnLogin_eq_none hol, hcs]

/-- Witness for C2 at the concrete configuration: device `c1` redeems `tok1`
at time 500 with alice's credentials. -/
theorem c2_login_success_witness :
    (verifyLogin hkEx envEx reqEx storeEx).outcome = Outcome.next
    ∧ (verifyLogin hkEx envEx reqEx storeEx).localsUuid = some "uuid-alice"
    ∧ (verifyLogin hkEx envEx reqEx storeEx).cookieOps =
        [CookieOp.clear "form_session",
         CookieOp.set
           { name := "login_session", value := "newtok", expires := 5000,
             path := "/", domain := stripPort reqEx.hostname,
             secure := true, httpOnly := true, sameSite := "Strict" }] :=
  c2_login_success hkEx envEx reqEx storeEx recEx "uuid-alice" "newtok" 5000
    (by decide) (by decide) (by decide) (by decide) (by decide) (by decide)
    (by decide) (by intro cb hcb; simp [hkEx] at hcb) (by decide)

/-- C6 counterexample: with `CreateSession` failing with message
`503: overloaded`, the response has status 503 but an **empty** body — not
body `overloaded` as claimed. The callback passed to `RepFunc` only records
the captured status digits, and the call sets `RepFunc`'s trailing blank
flag, which skips building the replacement and returns nil, so the `msg`
sent as the body is nil. -/
theorem c6_counterexample :
    (verifyLogin hkErr envEx reqEx storeEx).outcome = Outcome.denied 503 ""
    ∧ (verifyLogin hkErr envEx reqEx storeEx).outcome
        ≠ Outcome.denied 503 "overloaded" := by decide

/-- C6 amended: when `CreateSession` fails after a fully verified login, the
response status is the integer parsed from an optional leading
digits-and-colon prefix of the error message (default 401 when no such
prefix is present), the response body is **empty** — the error message is
discarded, `RepFunc` running in extraction-only (blank) mode and returning
nil — and no `login_session` cookie is set; in particular the error message
`503: overloaded` yields response status 503 with an empty body. -/
theorem c6_create_session_error (hk : HookList) (env : Env) (req : Request)
    (store : FormStore) (s : FormSessionData) (uuid tok : String)
    (expT : Nat) (errMsg : String)
    (ha : req.formAction = "login")
    (hatt : hk.onAttempt req = true)
    (hget : storeGet store req.formSession = some s)
    (hpcid : s.pcid = hk.getPCID req.conn)
    (hexp : env.now < s.exp)
    (hcookie : req.cookieFormSession = s.cookie)
    (hvp : hk.verifyUserPass req.formUsername req.formPassword = (uuid, true))
    (hol : ∀ cb ∈ hk.onLogin, cb uuid = none)
    (hcs : hk.createSession uuid = (tok, expT, some errMsg)) :
    (verifyLogin hk env req store).outcome =
      Outcome.denied (parseStatusErr errMsg) ""
    ∧ (verifyLogin hk env req store).cookieOps = [CookieOp.clear "form_session"]
    ∧ parseStatusErr "503: overloaded" = 503
    ∧ (∀ m : String, m.data.takeWhile Char.isDigit = [] →
        parseStatusErr m = 401) := by
  refine ⟨?_, ?_, by decide, ?_⟩
  · rw [verifyLogin_redeem_success hk env req store s ha hatt hget hpcid hexp hcookie]
    unfold loginChecks
    simp [hvp, runOnLogin_eq_none hol, hcs]
  · rw [verifyLogin_redeem_success hk env req store s ha hatt hget hpcid hexp hcookie]
    unfold loginChecks
    simp [hvp, runOnLogin_eq_none hol, hcs]
  · intro m hm
    unfold parseStatusErr
    simp only [hm, List.length_nil, List.drop_zero, List.isEmpty_nil, if_true]
    split <;> rfl

/-- Witness for the amended C6: with `CreateSession` failing with message
`503: overloaded`, the response is status 503 with an empty body. -/
theorem c6_create_session_error_witness :
    ((verifyLogin hkErr envEx reqEx storeEx).outcome =
        Outcome.denied (parseStatusErr "503: overloaded") ""
      ∧ (verifyLogin hkErr envEx reqEx storeEx).cookieOps =
          [CookieOp.clear "form_session"]
      ∧ parseStatusErr "503: overloaded" = 503
      ∧ (∀ m : String, m.data.takeWhile Char.isDigit = [] →
          parseStatusErr m = 401))
    ∧ (verifyLogin hkErr envEx reqEx storeEx).outcome =
        Outcome.denied 503 "" :=
  ⟨c6_create_session_error hkErr envEx reqEx storeEx recEx "uuid-alice" "" 0
      "503: overloaded" (by decide) (by decide) (by decide) (by decide)
      (by decide) (by decide) (by decide)
      (by intro cb hcb; simp [hkErr, hkEx] at hcb) (by decide),
    by decide⟩

/-- C8: `GetLoginSession` attaches the uuid exactly when a non-empty
`login_session` cookie is present and `VerifySession` affirms it, and in
every case it proceeds downstream, sets or clears no cookie, and leaves the
form-session store untouched. -/
theorem c8_passive_resolver (hk : HookList) (req : Request) (store : FormStore) :
    (getLoginSession hk req store).outcome = Outcome.next
    ∧ (getLoginSession hk req store).cookieOps = []
    ∧ (getLoginSession hk req store).store = store
    ∧ (getLoginSession hk req store).localsUuid =
        (if req.cookieLoginSession ≠ ""
            ∧ (hk.verifySession req.cookieLoginSession).2 = true
         then some (hk.verifySession req.cookieLoginSession).1
         else none) := by
  unfold getLoginSession
  by_cases hc : req.cookieLoginSession = "" <;>
    by_cases hv : (hk.verifySession req.cookieLoginSession).2 = true <;>
      simp_all

/-- C10: `VerifyLogin` passes the request downstream exactly when it has
attached a verified uuid to the request context; every denial and every
challenge issuance completes without attaching a uuid and without invoking
the next handler. -/
theorem c10_next_iff_uuid (hk : HookList) (env : Env) (req : Request)
    (store : FormStore) :
    (verifyLogin hk env req store).outcome = Outcome.next
    ↔ (verifyLogin hk env req store).localsUuid ≠ none := by
  simp only [verifyLogin, noActionResp, challengeResp, loginChecks, sessionInvalid]
  repeat' split
  all_goals simp

/-- C5 counterexample: when `OnAttempt` denies, the code answers status 401
with message `Too Many Login Attempts!`, not status 429 with message
`Too Many Login Attempts` as claimed. -/
theorem c5_counterexample :
    (verifyLogin hkEx envEx reqBlocked storeEx).outcome
        = Outcome.denied 401 "Too Many Login Attempts!"
    ∧ (verifyLogin hkEx envEx reqBlocked storeEx).outcome
        ≠ Outcome.denied 429 "Too Many Login Attempts" := by decide

/-- C5 amended: for every `action=login` request that the `OnAttempt` hook
denies, the state machine terminates immediately with status 401 and message
`Too Many Login Attempts!`, before any form-session redemption (the store is
untouched, no cookie is modified) or credential check (no hook side effect is
performed). -/
theorem c5_attempt_denied (hk : HookList) (env : Env) (req : Request)
    (store : FormStore)
    (ha : req.formAction = "login")
    (hatt : hk.onAttempt req = false) :
    verifyLogin hk env req store =
      { outcome := Outcome.denied 401 "Too Many Login Attempts!",
        cookieOps := [], store := store, localsUuid := none, events := [] } := by
  simp [verifyLogin, ha, hatt]

/-- Witness for the amended C5 at the rate-limited request. -/
theorem c5_attempt_denied_witness :
    verifyLogin hkEx envEx reqBlocked storeEx =
      { outcome := Outcome.denied 401 "Too Many Login Attempts!",
        cookieOps := [], store := storeEx, localsUuid := none, events := [] } :=
  c5_attempt_denied hkEx envEx reqBlocked storeEx (by decide) (by decide)

/-- The credential-checking continuation never touches the store it is
given. -/
theorem loginChecks_store (hk : HookList) (req : Request) (store1 : FormStore)
    (hostname : String) :
    (loginChecks hk req store1 hostname).store = store1 := by
  simp only [loginChecks]
  repeat' split
  all_goals rfl

/-- C1 counterexample: with token `tok1` present in the store but the caller's
fingerprint mismatching (`pcid-c2` vs stored `pcid-c1`), the `action=login`
request fails with 408 yet the record is **not** deleted, and a later request
from the matching device redeems the same token successfully — resurrection
on retry, contradicting the claim that the record is deleted in all present
cases. -/
theorem c1_counterexample :
    storeGet storeEx "tok1" = some recEx
    ∧ (verifyLogin hkEx envEx reqMismatch storeEx).outcome
        = Outcome.denied 408 "Session Invalid Or Expired!"
    ∧ storeGet (verifyLogin hkEx envEx reqMismatch storeEx).store "tok1"
        = some recEx
    ∧ (verifyLogin hkEx envEx reqEx
          (verifyLogin hkEx envEx reqMismatch storeEx).store).outcome
        = Outcome.next := by decide

/-- C1 amended: for an `action=login` request whose token has a record in the
store, the redeem attempt deletes the record **iff** the stored fingerprint
matches the caller and the record is unexpired (so a cookie-secret mismatch
still consumes the record, but an expired record or a fingerprint mismatch
leaves it in the store, where a later redeem can still succeed). -/
theorem c1_delete_iff_valid (hk : HookList) (env : Env) (req : Request)
    (store : FormStore) (s : FormSessionData)
    (ha : req.formAction = "login")
    (hatt : hk.onAttempt req = true)
    (hget : storeGet store req.formSession = some s) :
    ((s.pcid = hk.getPCID req.conn ∧ env.now < s.exp) →
      (verifyLogin hk env req store).store = storeDel store req.formSession)
    ∧ (¬(s.pcid = hk.getPCID req.conn ∧ env.now < s.exp) →
      (verifyLogin hk env req store).store = store) := by
  constructor <;> intro hcond <;>
    simp only [verifyLogin, ha, hatt, hget, if_true, String.reduceEq,
      Bool.false_eq_true, if_false, ite_true, ite_false]
  · rw [if_pos hcond]
    by_cases hc : req.cookieFormSession = s.cookie
    · rw [if_pos hc, loginChecks_store]
    · rw [if_neg hc]; rfl
  · rw [if_neg hcond]; rfl

/-- Witness for the amended C1: the valid device consumes `tok1` (left), and
at a time past the expiry the record survives the attempt (right). -/
theorem c1_delete_iff_valid_witness :
    ((recEx.pcid = hkEx.getPCID reqEx.conn ∧ envEx.now < recEx.exp)
      ∧ (verifyLogin hkEx envEx reqEx storeEx).store = storeDel storeEx "tok1")
    ∧ (¬(recEx.pcid = hkEx.getPCID reqMismatch.conn ∧ envEx.now < recEx.exp)
      ∧ (verifyLogin hkEx envEx reqMismatch storeEx).store = storeEx) :=
  ⟨⟨by decide, (c1_delete_iff_valid hkEx envEx reqEx storeEx recEx
      (by decide) (by decide) (by decide)).1 (by decide)⟩,
   ⟨by decide, (c1_delete_iff_valid hkEx envEx reqMismatch storeEx recEx
      (by decide) (by decide) (by decide)).2 (by decide)⟩⟩

/-- C3 counterexample: on a failing redemption the code's generic message is
`Session Invalid Or Expired!`, not `Session Invalid Or Expired` as the claim
quotes it. -/
theorem c3_counterexample :
    (verifyLogin hkEx envEx reqNoTok storeEx).outcome
        = Outcome.denied 408 "Session Invalid Or Expired!"
    ∧ (verifyLogin hkEx envEx reqNoTok storeEx).outcome
        ≠ Outcome.denied 408 "Session Invalid Or Expired" := by decide

/-- C3 amended: every `action=login` request whose form-session redemption
fails — token absent, record expired, fingerprint mismatch, or cookie-secret
mismatch — gets status 408 with the single generic message
`Session Invalid Or Expired!` (identical in all four cases, leaking nothing
about which check failed), and the `form_session` cookie is cleared. -/
theorem c3_redeem_failure_408 (hk : HookList) (env : Env) (req : Request)
    (store : FormStore)
    (ha : req.formAction = "login")
    (hatt : hk.onAttempt req = true)
    (hfail : match storeGet store req.formSession with
      | none => True
      | some s => s.pcid ≠ hk.getPCID req.conn ∨ s.exp ≤ env.now
          ∨ req.cookieFormSession ≠ s.cookie) :
    (verifyLogin hk env req store).outcome
        = Outcome.denied 408 "Session Invalid Or Expired!"
    ∧ (verifyLogin hk env req store).cookieOps
        = [CookieOp.clear "form_session"] := by
  simp only [verifyLogin, ha, hatt, if_true, String.reduceEq,
    Bool.false_eq_true, if_false, ite_true, ite_false]
  cases hget : storeGet store req.formSession with
  | none => simp [sessionInvalid]
  | some s =>
    rw [hget] at hfail
    dsimp only at hfail ⊢
    by_cases hcond : s.pcid = hk.getPCID req.conn ∧ env.now < s.exp
    · have hc : ¬ req.cookieFormSession = s.cookie := by
        rcases hfail with h | h | h
        · exact absurd hcond.1 h
        · omega
        · exact h
      rw [if_pos hcond, if_neg hc]
      exact ⟨rfl, rfl⟩
    · rw [if_neg hcond]
      exact ⟨rfl, rfl⟩

/-- Witness for the amended C3 at a request whose token is absent from the
store. -/
theorem c3_redeem_failure_408_witness :
    (verifyLogin hkEx envEx reqNoTok storeEx).outcome
        = Outcome.denied 408 "Session Invalid Or Expired!"
    ∧ (verifyLogin hkEx envEx reqNoTok storeEx).cookieOps
        = [CookieOp.clear "form_session"] :=
  c3_redeem_failure_408 hkEx envEx reqNoTok storeEx
    (by decide) (by decide)
    (by rw [show storeGet storeEx reqNoTok.formSession = none from by decide]
        trivial)

/-- C7 counterexample: the logout branch passes `RemoveSession` the submitted
`session` form field (`formTok`), not the `login_session` cookie value
(`cookieTok`) as the claim states. -/
theorem c7_counterexample :
    removeEvs (verifyLogin hkEx envEx reqLogout storeEx).events = ["formTok"]
    ∧ reqLogout.cookieLoginSession = "cookieTok"
    ∧ ("formTok" : String) ≠ "cookieTok" := by decide

/-- C7 amended: every `action=logout` request calls `RemoveSession` exactly
once with the submitted `session` form field (not the `login_session`
cookie), clears the `login_session` cookie, and then re-evaluates exactly as
if no action were submitted — outcome, resulting store and attached uuid are
those of the no-action run, so logout never terminates with its own success
or denial. -/
theorem c7_logout_fallthrough (hk : HookList) (env : Env) (req : Request)
    (store : FormStore) (ha : req.formAction = "logout") :
    removeEvs (verifyLogin hk env req store).events = [req.formSession]
    ∧ CookieOp.clear "login_session" ∈ (verifyLogin hk env req store).cookieOps
    ∧ (verifyLogin hk env req store).outcome
        = (verifyLogin hk env { req with formAction := "" } store).outcome
    ∧ (verifyLogin hk env req store).store
        = (verifyLogin hk env { req with formAction := "" } store).store
    ∧ (verifyLogin hk env req store).localsUuid
        = (verifyLogin hk env { req with formAction := "" } store).localsUuid := by
  have hL : verifyLogin hk env req store =
      noActionResp hk env req store (stripPort req.hostname) req.path
        [Ev.removeSessionEv req.formSession] [CookieOp.clear "login_session"] := by
    simp [verifyLogin, ha]
  have hR : verifyLogin hk env { req with formAction := "" } store =
      noActionResp hk env { req with formAction := "" } store
        (stripPort req.hostname) req.path [] [] := by
    simp [verifyLogin]
  rw [hL, hR]
  unfold noActionResp challengeResp
  dsimp only
  by_cases hc : req.cookieLoginSession = ""
  · simp [hc, removeEvs]
  · by_cases hv : (hk.verifySession req.cookieLoginSession).2 = true
    · simp [hc, hv, removeEvs]
    · simp [hc, hv, removeEvs]

/-- Witness for the amended C7 at the concrete logout request. -/
theorem c7_logout_fallthrough_witness :
    removeEvs (verifyLogin hkEx envEx reqLogout storeEx).events = ["formTok"]
    ∧ CookieOp.clear "login_session"
        ∈ (verifyLogin hkEx envEx reqLogout storeEx).cookieOps
    ∧ (verifyLogin hkEx envEx reqLogout storeEx).outcome
        = (verifyLogin hkEx envEx { reqLogout with formAction := "" } storeEx).outcome
    ∧ (verifyLogin hkEx envEx reqLogout storeEx).store
        = (verifyLogin hkEx envEx { reqLogout with formAction := "" } storeEx).store
    ∧ (verifyLogin hkEx envEx reqLogout storeEx).localsUuid
        = (verifyLogin hkEx envEx { reqLogout with formAction := "" } storeEx).localsUuid :=
  c7_logout_fallthrough hkEx envEx reqLogout storeEx (by decide)

/-- C4 counterexample: user `alice` has second-factor enabled
(`FormAuth.Enabled = true`), yet the `action=login` request with correct
credentials sets the `login_session` cookie directly and passes downstream,
and no new form session is created (the store is left with `tok1` consumed
and nothing added) — the 2FA form is never rendered. -/
theorem c4_counterexample :
    (hkRev1Ex.formVerifyLogin "alice" "pw").1.enabled = true
    ∧ (verifyLoginRev1 hkRev1Ex envEx reqEx storeEx).outcome = OutcomeRev1.next
    ∧ (verifyLoginRev1 hkRev1Ex envEx reqEx storeEx).cookieOps =
        [CookieOp.clear "form_session",
         CookieOp.set
           { name := "login_session", value := "newtok", expires := 5000,
             path := "/", domain := "example.com", secure := true,
             httpOnly := true, sameSite := "Strict" }]
    ∧ (verifyLoginRev1 hkRev1Ex envEx reqEx storeEx).store = [] := by decide

/-- C4 amended: the second-factor branch is disabled (the guard in the code
is literally `!auth2.Enabled || true`, with the 2FA handling left as a todo):
for every `action=login` request with a successful redemption and verified
credentials, whatever `FormAuth` value the credential hook returns — second
factor enabled or not — the middleware sets the `login_session` cookie
directly, passes the request downstream, and creates no fresh form session. -/
theorem c4_no_second_factor (hk : HookListRev1) (env : Env) (req : Request)
    (store : FormStore) (s : FormSessionData) (auth2 : FormAuth)
    (tok : String) (expT : Nat)
    (ha : req.formAction = "login")
    (hget : storeGet store req.formSession = some s)
    (hpcid : s.pcid = hk.getPCID req.conn)
    (hexp : env.now < s.exp)
    (hcookie : req.cookieFormSession = s.cookie)
    (hvl : hk.formVerifyLogin req.formUsername req.formPassword = (auth2, true))
    (hcs : hk.formCreateLoginSession () = (tok, expT)) :
    (verifyLoginRev1 hk env req store).outcome = OutcomeRev1.next
    ∧ (verifyLoginRev1 hk env req store).cookieOps =
        [CookieOp.clear "form_session",
         CookieOp.set
           { name := "login_session", value := tok, expires := expT,
             path := "/", domain := stripPort req.hostname, secure := true,
             httpOnly := true, sameSite := "Strict" }]
    ∧ (verifyLoginRev1 hk env req store).store
        = storeDel store req.formSession := by
  simp [verifyLoginRev1, ha, hget, hpcid, hexp, hcookie, hvl, hcs]

/-- Witness for the amended C4 with second-factor enabled for the user. -/
theorem c4_no_second_factor_witness :
    ((verifyLoginRev1 hkRev1Ex envEx reqEx storeEx).outcome = OutcomeRev1.next
      ∧ (verifyLoginRev1 hkRev1Ex envEx reqEx storeEx).cookieOps =
          [CookieOp.clear "form_session",
           CookieOp.set
             { name := "login_session", value := "newtok", expires := 5000,
               path := "/", domain := stripPort reqEx.hostname, secure := true,
               httpOnly := true, sameSite := "Strict" }]
      ∧ (verifyLoginRev1 hkRev1Ex envEx reqEx storeEx).store
          = storeDel storeEx "tok1")
    ∧ ({ enabled := true, email := "alice@example.com" } : FormAuth).enabled
        = true :=
  ⟨c4_no_second_factor hkRev1Ex envEx reqEx storeEx recEx
      { enabled := true, email := "alice@example.com" } "newtok" 5000
      (by decide) (by decide) (by decide) (by decide) (by decide) (by decide)
      (by decide),
    by decide⟩

/-- C9: the redemption of lines 187-189 is **not** an atomic
check-and-delete. Under the schedule Get-A, Get-B, Del-A, Del-B (each SyncMap
operation atomic), two handlers redeeming the same token `tok1` with the
matching fingerprint, time and cookie secret **both** observe a successful
redemption, contradicting the claim that at most one caller can; only under
a serialized schedule (A runs Get and Del before B starts) does exactly one
succeed. -/
theorem c9_redeem_race_both_succeed :
    (runSched "pcid-c1" 500 "cs1" "tok1" [true, false, true, false]
        storeEx { pc := 0, passed := false } { pc := 0, passed := false }).2.1.passed
      = true
    ∧ (runSched "pcid-c1" 500 "cs1" "tok1" [true, false, true, false]
        storeEx { pc := 0, passed := false } { pc := 0, passed := false }).2.2.passed
      = true
    ∧ (runSched "pcid-c1" 500 "cs1" "tok1" [true, true, false, false]
        storeEx { pc := 0, passed := false } { pc := 0, passed := false }).2.1.passed
      = true
    ∧ (runSched "pcid-c1" 500 "cs1" "tok1" [true, true, false, false]
        storeEx { pc := 0, passed := false } { pc := 0, passed := false }).2.2.passed
      = false := by decide

end Webext
